import Mathlib

/-!
Verification of the agent-workflow orchestrator of the Jedha use-case
repository against its natural-language specification.

The repository is a LangGraph-based CRM agent built across several exercise
solutions.  The definitions below are shallow embeddings of the TypeScript
functions of those solutions:

* `Engine`   — the graph-engine run loop with a step budget.  No engine
  implementation exists under the repository sources (the runtime is the
  external LangGraph library), so this component is modelled from the
  specification's state-machine description.
* `Ex3`      — "Exercise 3: Make It Resilient" (retry with exponential
  backoff and jitter, email sending, error-first routers).
* `Ex2`      — "Exercise 2: Add Approval Gate" (state channels and routers).
* `Ex4`      — "Exercise 4: Ship It" (the deployed edge function: full graph,
  approval routing, email execution, HTTP approval branch).
* `Notes`    — the error-handling lecture notes (`calculateBackoff`,
  `CircuitBreaker`).

Machine integers are modelled as `Nat`/`Int`/`Rat`; fallible operations
return `Except`; I/O performed by nodes is modelled by explicit oracles
(result streams / jitter streams) so that every definition is executable.
-/

namespace Engine

/-- Modelled from the spec: the Graph Engine state machine of §4.4.  The
repository contains no engine implementation (graphs are compiled and run by
the external LangGraph library), so the run loop, its terminal statuses and
its step budget are taken from the specification's words: the engine
repeatedly executes the current node, merges, routes, and forces a
transition to `failed` with a step-budget-exceeded error once the maximum
node-execution count is reached. -/
inductive RunStatus : Type
  | running
  | completed
  | failed
  | awaitingApproval
  deriving DecidableEq, Repr

/-- Modelled from the spec: the error taxonomy entry raised when the
runaway-loop guard trips (§7). -/
inductive EngineError : Type
  | stepBudgetExceeded
  deriving DecidableEq, Repr

/-- Outcome of executing one node: an updated merged state, or a suspension
because the node created a Pending Action (spec §4.4). -/
inductive NodeOutcome (σ : Type) : Type
  | update (s : σ)
  | suspend (s : σ)
  deriving DecidableEq, Repr

/-- A router either selects the next node or a terminal marker; routing a
state with an unrecovered error to `endFailed` terminates the run in
`failed` (spec §4.3, §4.4). -/
inductive Route (ν : Type) : Type
  | next (n : ν)
  | endCompleted
  | endFailed
  deriving DecidableEq, Repr

/-- Modelled from the spec: a graph is a node registry (executors) together
with an edge table (routers); both are total functions built at graph-build
time. -/
structure GraphSpec (ν σ : Type) where
  exec : ν → σ → NodeOutcome σ
  route : ν → σ → Route ν

/-- The result of a run: final status, the step-budget error if it tripped,
the final state, and the number of node executions performed. -/
structure RunResult (σ : Type) where
  status : RunStatus
  err : Option EngineError
  state : σ
  steps : Nat
  deriving DecidableEq, Repr

/-- Modelled from the spec: the run loop.  `fuel` is the remaining step
budget; exhausting it forces `failed` with `stepBudgetExceeded`. -/
def runFrom (g : GraphSpec ν σ) : Nat → ν → σ → RunResult σ
  | 0, _, s => ⟨.failed, some .stepBudgetExceeded, s, 0⟩
  | fuel + 1, n, s =>
    match g.exec n s with
    | .suspend s' => ⟨.awaitingApproval, none, s', 1⟩
    | .update s' =>
      match g.route n s' with
      | .endCompleted => ⟨.completed, none, s', 1⟩
      | .endFailed => ⟨.failed, none, s', 1⟩
      | .next n' =>
        let r := runFrom g fuel n' s'
        { r with steps := r.steps + 1 }

/-- A run of a graph under a step budget, starting `running` at the declared
entry node (spec §4.4). -/
def run (g : GraphSpec ν σ) (budget : Nat) (entry : ν) (s0 : σ) : RunResult σ :=
  runFrom g budget entry s0

/-- The two-router ping-pong graph of spec §8 Scenario D: the router for
node X always returns node Y and the router for node Y always returns
node X; nodes update nothing. -/
def pingPongGraph : GraphSpec Bool Unit where
  exec := fun _ s => .update s
  route := fun n _ => .next (!n)

end Engine

namespace Ex3

/-- A JavaScript error value as the retry utilities inspect it: a message
and an optional numeric `status` field (exercise-3 solution). -/
structure JsError where
  message : String
  status : Option Int
  deriving DecidableEq, Repr

/-- `RetryOptions` of the exercise-3 solution: `maxRetries`, `baseDelayMs`,
`maxDelayMs` and the `shouldRetry` classifier. -/
structure RetryOptions where
  maxRetries : Nat
  baseDelayMs : ℚ
  maxDelayMs : ℚ
  shouldRetry : JsError → Bool

/-- The default classifier: do not retry client errors (status in
[400, 500)) except rate limits (429); retry everything else, including
errors with no status. -/
def defaultShouldRetry (e : JsError) : Bool :=
  match e.status with
  | some s => if 400 ≤ s ∧ s < 500 ∧ s ≠ 429 then false else true
  | none => true

/-- `defaultRetryOptions` of the exercise-3 solution. -/
def defaultRetryOptions : RetryOptions :=
  ⟨3, 1000, 10000, defaultShouldRetry⟩

/-- Observable trace of one `withRetry` execution: the final result
(`Except.error none` models the `throw lastError` reached with no error
recorded, possible only when `maxRetries = 0`), the number of invocations
of the wrapped operation, the backoff waits performed in order, and the
attempt numbers written to the console on each failure. -/
structure RetryTrace (E T : Type) where
  result : Except (Option E) T
  calls : Nat
  delays : List ℚ
  failLog : List Nat
  deriving Repr

/-- The backoff wait the exercise-3 `withRetry` performs after a retryable
failure of attempt `attempt`:
`min(baseDelayMs * 2^(attempt-1) * (1 + random() * 0.1), maxDelayMs)`,
where `rand attempt` is the `Math.random()` sample drawn for that attempt. -/
def backoffDelay (opts : RetryOptions) (rand : Nat → ℚ) (attempt : Nat) : ℚ :=
  min (opts.baseDelayMs * 2 ^ (attempt - 1) * (1 + rand attempt * (1 / 10)))
    opts.maxDelayMs

/-- The backoff formula as the specification words it (§4.6):
`min(max_delay, base_delay * 2^(n-1)) * (1 + random() * jitter_fraction)` —
the clamp is applied to the exponential term before the jitter factor is
multiplied on.  Written from the spec's words (with the code's jitter
fraction 0.1) for comparison with `backoffDelay`, which is the code's
formula. -/
def specBackoffFormula (opts : RetryOptions) (rand : Nat → ℚ) (attempt : Nat) : ℚ :=
  min opts.maxDelayMs (opts.baseDelayMs * 2 ^ (attempt - 1)) *
    (1 + rand attempt * (1 / 10))

/-- The retry loop of the exercise-3 `withRetry`, unfolded over the
remaining attempts (`fuel`); `attempt` is the 1-indexed number of the
current attempt.  `fn attempt` is the outcome of the `attempt`-th
invocation of the wrapped operation.  On failure the attempt number is
logged; if the attempt was the last one or the classifier marks the error
non-retryable, the error is rethrown as is; otherwise the loop waits
`backoffDelay` and continues. -/
def withRetryGo (opts : RetryOptions) (fn : Nat → Except JsError T)
    (rand : Nat → ℚ) : Nat → Nat → RetryTrace JsError T
  | _, 0 => ⟨.error none, 0, [], []⟩
  | attempt, fuel + 1 =>
    match fn attempt with
    | .ok t => ⟨.ok t, 1, [], []⟩
    | .error e =>
      let isLastAttempt := fuel == 0
      let retry := opts.shouldRetry e
      if isLastAttempt || !retry then
        ⟨.error (some e), 1, [], [attempt]⟩
      else
        let d := backoffDelay opts rand attempt
        let rest := withRetryGo opts fn rand (attempt + 1) fuel
        ⟨rest.result, rest.calls + 1, d :: rest.delays, attempt :: rest.failLog⟩

/-- `withRetry` of the exercise-3 solution, with the merged options passed
explicitly (the source spreads caller options over
`defaultRetryOptions`). -/
def withRetry (opts : RetryOptions) (fn : Nat → Except JsError T)
    (rand : Nat → ℚ) : RetryTrace JsError T :=
  withRetryGo opts fn rand 1 opts.maxRetries

/-- The result type of the email utilities. -/
structure EmailResult where
  success : Bool
  messageId : Option String
  error : Option String
  deriving DecidableEq, Repr

/-- `sendEmail` of the exercise-3 solution, with the environment and
network modelled explicitly: `apiKey` is `RESEND_API_KEY`, `now` is
`Date.now()`, `fetchOp attempt` is the outcome of the `attempt`-th Resend
API call and `rand` the jitter stream.  Without an API key it returns a
mock success immediately; otherwise it wraps the fetch in `withRetry` with
`maxRetries = 2` and `baseDelayMs = 2000`.  The second component counts
network calls performed. -/
def sendEmail (apiKey : Option String) (now : Nat)
    (fetchOp : Nat → Except JsError EmailResult) (rand : Nat → ℚ) :
    Except (Option JsError) EmailResult × Nat :=
  match apiKey with
  | none => (.ok ⟨true, some ("mock-" ++ toString now), none⟩, 0)
  | some _ =>
    let tr := withRetry
      { defaultRetryOptions with maxRetries := 2, baseDelayMs := 2000 }
      fetchOp rand
    (tr.result, tr.calls)

end Ex3

namespace Notes

/-- `calculateBackoff` of the error-handling lecture notes:
`baseDelay * 2^(attempt-1) * (1 + jitter)` with `jitter = random() * 0.3`
and no clamp; `jitterSample` models the `Math.random()` draw. -/
def calculateBackoff (attempt : Nat) (baseDelay : ℚ) (jitterSample : ℚ) : ℚ :=
  baseDelay * 2 ^ (attempt - 1) * (1 + jitterSample * (3 / 10))

end Notes

/-- The last attempt number present in a retry console log (the final
annotation the executor emits before giving up). -/
def lastLog : List Nat → Option Nat
  | [] => none
  | [a] => some a
  | _ :: b :: rest => lastLog (b :: rest)

namespace Notes

/-- The `CircuitBreaker` class of the error-handling lecture notes:
consecutive-failure count, timestamp of the last failure, failure
threshold (5 in the source) and cooldown window in ms (60000 in the
source). -/
structure CircuitBreaker where
  failures : Nat
  lastFailure : Option Int
  threshold : Nat
  resetTimeout : Int
  deriving DecidableEq, Repr

/-- A freshly constructed breaker: no failures recorded, the source's
constant threshold and cooldown. -/
def CircuitBreaker.init : CircuitBreaker :=
  ⟨0, none, 5, 60000⟩

/-- `isOpen`: below the threshold the circuit is closed; otherwise it is
open exactly while the time since the last failure is under the cooldown
window (`lastFailure?.getTime() || 0` reads 0 when no failure is
recorded). -/
def CircuitBreaker.isOpen (cb : CircuitBreaker) (now : Int) : Bool :=
  if cb.failures < cb.threshold then false
  else now - cb.lastFailure.getD 0 < cb.resetTimeout

/-- `recordFailure`: increment the count and stamp the failure time. -/
def CircuitBreaker.recordFailure (cb : CircuitBreaker) (now : Int) :
    CircuitBreaker :=
  { cb with failures := cb.failures + 1, lastFailure := some now }

/-- `reset`: clear the count and the failure timestamp. -/
def CircuitBreaker.reset (cb : CircuitBreaker) : CircuitBreaker :=
  { cb with failures := 0, lastFailure := none }

/-- One call through the breaker: the outcome (`Except.error none` models
the "Circuit breaker is open - service unavailable" error, a kind distinct
from any operation error), the updated breaker state, and whether the
wrapped operation was invoked. -/
structure BreakerCall (E T : Type) where
  result : Except (Option E) T
  state : CircuitBreaker
  invoked : Bool
  deriving Repr

/-- `execute` of the `CircuitBreaker` class: fail fast while open without
invoking the operation; otherwise invoke it, resetting the breaker on
success and recording the failure (and rethrowing) on error.  `now` is
`Date.now()` at the call and `op` the operation's outcome. -/
def CircuitBreaker.execute (cb : CircuitBreaker) (now : Int)
    (op : Except E T) : BreakerCall E T :=
  if cb.isOpen now then ⟨.error none, cb, false⟩
  else
    match op with
    | .ok t => ⟨.ok t, cb.reset, true⟩
    | .error e => ⟨.error (some e), cb.recordFailure now, true⟩

end Notes

/-- The intent extracted by the understand-request node: a classification
string and an optional target company name (shared shape across all
solutions). -/
structure Intent where
  type : String
  target : Option String
  deriving DecidableEq, Repr

/-- The approval status channel's non-null values:
"pending" | "approved" | "rejected". -/
inductive ApprovalStatus : Type
  | pending
  | approved
  | rejected
  deriving DecidableEq, Repr

/-- A pending action's kind: "update_lead" | "send_email". -/
inductive ActionType : Type
  | updateLead
  | sendEmail
  deriving DecidableEq, Repr

/-- Email parameters {to, subject, body} (shared shape across solutions);
the source's `to` field is spelled `toAddress` here because `to` is a
reserved word in Lean. -/
structure EmailContent where
  toAddress : String
  subject : String
  body : String
  deriving DecidableEq, Repr

/-- The `Partial<Lead>` produced by the update-parsing code: only the
`status` field is ever set. -/
structure LeadChanges where
  status : Option String
  deriving DecidableEq, Repr

/-- The per-channel merge of the LangGraph state graphs of the solutions.
Every channel is declared as `value: (a, b) => b ?? a`.  The outer
`Option` of `b` is presence of the key in the node's partial update (for
an absent key the reducer is not invoked and the channel keeps `a`); a
present key carries a JavaScript value that may itself be null (`none`),
and the reducer `b ?? a` keeps `a` for a null update. -/
def channelMerge (a : Option α) (b : Option (Option α)) : Option α :=
  match b with
  | none => a
  | some bv =>
    match bv with
    | none => a
    | some v => some v

namespace Ex2

/-- The `Lead` row shape of the exercise-2 solution. -/
structure Lead where
  id : String
  company_name : String
  contact_name : String
  contact_email : String
  status : String
  score : Int
  estimated_value : Option Int
  notes : Option String
  deriving DecidableEq, Repr

/-- The `PendingAction` of the exercise-2 solution (with the `reason`
field explaining why approval was proposed). -/
structure PendingAction where
  type : ActionType
  leadId : String
  leadName : String
  changes : Option LeadChanges
  emailContent : Option EmailContent
  reason : String
  deriving DecidableEq, Repr

/-- The `AgentState` of the exercise-2 solution.  Every field holds a
JavaScript value that may be null, hence the `Option` types. -/
structure AgentState where
  userMessage : Option String
  intent : Option Intent
  leads : Option (List Lead)
  selectedLead : Option Lead
  pendingAction : Option PendingAction
  approvalStatus : Option ApprovalStatus
  approvalReason : Option String
  response : Option String
  error : Option String
  deriving DecidableEq, Repr

/-- A node's partial state update: for each channel, `none` means the key
is absent from the returned object, `some v` that it is present with
JavaScript value `v` (possibly null). -/
structure StateUpdate where
  userMessage : Option (Option String)
  intent : Option (Option Intent)
  leads : Option (Option (List Lead))
  selectedLead : Option (Option Lead)
  pendingAction : Option (Option PendingAction)
  approvalStatus : Option (Option ApprovalStatus)
  approvalReason : Option (Option String)
  response : Option (Option String)
  error : Option (Option String)
  deriving DecidableEq, Repr

/-- The merge the exercise-2 state graph performs after a node returns a
partial update: each of the nine channels is merged by its declared
reducer `(a, b) => b ?? a`. -/
def mergeState (s : AgentState) (p : StateUpdate) : AgentState where
  userMessage := channelMerge s.userMessage p.userMessage
  intent := channelMerge s.intent p.intent
  leads := channelMerge s.leads p.leads
  selectedLead := channelMerge s.selectedLead p.selectedLead
  pendingAction := channelMerge s.pendingAction p.pendingAction
  approvalStatus := channelMerge s.approvalStatus p.approvalStatus
  approvalReason := channelMerge s.approvalReason p.approvalReason
  response := channelMerge s.response p.response
  error := channelMerge s.error p.error

/-- `routeByIntent` of the exercise-2 solution: a switch on
`state.intent?.type` with no error check. -/
def routeByIntent (s : AgentState) : String :=
  match s.intent with
  | some i =>
    if i.type = "lookup" then "handle_lookup"
    else if i.type = "update" then "handle_update"
    else "handle_other"
  | none => "handle_other"

/-- `routeAfterUpdate` of the exercise-2 solution. -/
def routeAfterUpdate (s : AgentState) : String :=
  if s.approvalStatus = some .pending then "human_review" else "end"

/-- `routeAfterReview` of the exercise-2 solution. -/
def routeAfterReview (s : AgentState) : String :=
  if s.approvalStatus = some .approved then "execute_approved_update"
  else if s.approvalStatus = some .rejected then "handle_rejection"
  else "end"

end Ex2

namespace Ex3

/-- The `Lead` row shape of the exercise-3 solution. -/
structure Lead where
  id : String
  company_name : String
  contact_name : String
  contact_email : String
  status : String
  score : Int
  estimated_value : Option Int
  deriving DecidableEq, Repr

/-- The `pendingAction` payload of the exercise-3 solution. -/
structure PendingAction where
  type : ActionType
  leadId : String
  leadName : String
  changes : Option LeadChanges
  emailContent : Option EmailContent
  deriving DecidableEq, Repr

/-- The `AgentState` of the exercise-3 solution (`errorDetails` is an
opaque diagnostic payload, modelled as a string). -/
structure AgentState where
  userMessage : Option String
  intent : Option Intent
  leads : Option (List Lead)
  pendingAction : Option PendingAction
  approvalStatus : Option ApprovalStatus
  response : Option String
  error : Option String
  errorDetails : Option String
  deriving DecidableEq, Repr

/-- `routeByIntent` of the exercise-3 solution: the error field is checked
first and routed to the `error_recovery` node; otherwise a switch on
`state.intent?.type`. -/
def routeByIntent (s : AgentState) : String :=
  if s.error.isSome then "error_recovery"
  else
    match s.intent with
    | some i =>
      if i.type = "lookup" then "handle_lookup"
      else if i.type = "followup" then "handle_followup"
      else "handle_other"
    | none => "handle_other"

/-- `routeAfterFollowup` of the exercise-3 solution: error first, then
the pending-approval check. -/
def routeAfterFollowup (s : AgentState) : String :=
  if s.error.isSome then "error_recovery"
  else if s.approvalStatus = some .pending then "human_review"
  else "end"

/-- `routeAfterReview` of the exercise-3 solution. -/
def routeAfterReview (s : AgentState) : String :=
  if s.approvalStatus = some .approved then "execute_email"
  else if s.approvalStatus = some .rejected then "handle_rejection"
  else "end"

end Ex3

namespace Ex4

/-- The `Lead` row shape of the deployed (exercise-4) solution. -/
structure Lead where
  id : String
  company_name : String
  contact_name : String
  contact_email : String
  status : String
  score : Int
  estimated_value : Option Int
  notes : Option String
  created_at : String
  updated_at : String
  last_contacted_at : Option String
  deriving DecidableEq, Repr

/-- The `PendingAction` of the deployed solution. -/
structure PendingAction where
  type : ActionType
  leadId : String
  leadName : String
  changes : Option LeadChanges
  emailContent : Option EmailContent
  deriving DecidableEq, Repr

/-- The `AgentState` of the deployed solution. -/
structure AgentState where
  userMessage : Option String
  intent : Option Intent
  leads : Option (List Lead)
  selectedLead : Option Lead
  pendingAction : Option PendingAction
  approvalStatus : Option ApprovalStatus
  response : Option String
  error : Option String
  deriving DecidableEq, Repr

/-- A node's partial state update for the deployed solution's eight
channels (`none` = key absent, `some v` = key present with JavaScript
value `v`, possibly null). -/
structure StateUpdate where
  userMessage : Option (Option String)
  intent : Option (Option Intent)
  leads : Option (Option (List Lead))
  selectedLead : Option (Option Lead)
  pendingAction : Option (Option PendingAction)
  approvalStatus : Option (Option ApprovalStatus)
  response : Option (Option String)
  error : Option (Option String)
  deriving DecidableEq, Repr

/-- The partial update with no keys set. -/
def StateUpdate.empty : StateUpdate :=
  ⟨none, none, none, none, none, none, none, none⟩

/-- The merge performed by the deployed solution's state graph: every
channel is declared `value: (a, b) => b ?? a`. -/
def mergeState (s : AgentState) (p : StateUpdate) : AgentState where
  userMessage := channelMerge s.userMessage p.userMessage
  intent := channelMerge s.intent p.intent
  leads := channelMerge s.leads p.leads
  selectedLead := channelMerge s.selectedLead p.selectedLead
  pendingAction := channelMerge s.pendingAction p.pendingAction
  approvalStatus := channelMerge s.approvalStatus p.approvalStatus
  response := channelMerge s.response p.response
  error := channelMerge s.error p.error

/-- `routeByIntent` of the deployed solution: a state with the error field
set is routed to "end"; otherwise a switch on `state.intent?.type`. -/
def routeByIntent (s : AgentState) : String :=
  if s.error.isSome then "end"
  else
    match s.intent with
    | some i =>
      if i.type = "lookup" then "handle_lookup"
      else if i.type = "update" then "handle_update"
      else if i.type = "followup" then "handle_followup"
      else "handle_other"
    | none => "handle_other"

/-- `routeAfterAction` of the deployed solution (used after both
`handle_update` and `handle_followup`). -/
def routeAfterAction (s : AgentState) : String :=
  if s.approvalStatus = some .pending then "human_review" else "end"

/-- `routeAfterReview` of the deployed solution: only the approved branch
leads to `execute_approved`. -/
def routeAfterReview (s : AgentState) : String :=
  if s.approvalStatus = some .approved then "execute_approved"
  else if s.approvalStatus = some .rejected then "handle_rejection"
  else "end"

/-- The node identifiers registered in the deployed solution's graph. -/
inductive Node : Type
  | understandRequest
  | handleLookup
  | handleUpdate
  | handleFollowup
  | handleOther
  | humanReview
  | executeApprovedNode
  | handleRejection
  deriving DecidableEq, Repr

/-- The deployed solution's edge table: after node `n` produced the merged
state `s`, `nextNode n s` is the node the graph continues with (`none` is
the END marker).  Conditional edges apply the routers above to the merged
state; plain edges go straight to END. -/
def nextNode : Node → AgentState → Option Node
  | .understandRequest, s =>
    match routeByIntent s with
    | "handle_lookup" => some .handleLookup
    | "handle_update" => some .handleUpdate
    | "handle_followup" => some .handleFollowup
    | "handle_other" => some .handleOther
    | _ => none
  | .handleUpdate, s =>
    if routeAfterAction s = "human_review" then some .humanReview else none
  | .handleFollowup, s =>
    if routeAfterAction s = "human_review" then some .humanReview else none
  | .humanReview, s =>
    match routeAfterReview s with
    | "execute_approved" => some .executeApprovedNode
    | "handle_rejection" => some .handleRejection
    | _ => none
  | .handleLookup, _ => none
  | .handleOther, _ => none
  | .executeApprovedNode, _ => none
  | .handleRejection, _ => none

/-- A point of a run: the node about to execute and the state it
receives. -/
structure Config where
  node : Node
  state : AgentState
  deriving DecidableEq, Repr

/-- One engine step of the deployed graph: the current node executes (its
body performs I/O, so the merged state `s'` it produces is modelled
nondeterministically — the relation admits every possible node output),
and the edge table applied to the merged state selects the next node.
Safety properties proved over this relation therefore hold for every
possible behavior of the node bodies. -/
inductive Step : Config → Config → Prop
  | exec (n : Node) (s s' : AgentState) (n' : Node)
      (h : nextNode n s' = some n') : Step ⟨n, s⟩ ⟨n', s'⟩

/-- Configurations reachable in some run of the deployed graph: the graph
enters at `understand_request` with an arbitrary initial state and follows
`Step`. -/
inductive Reachable : Config → Prop
  | entry (s0 : AgentState) : Reachable ⟨.understandRequest, s0⟩
  | tail {c c' : Config} : Reachable c → Step c c' → Reachable c'

/-- Which registered nodes invoke the email send / pending-action
execution side effect: in the deployed solution only `executeApproved`
calls `sendEmail` or executes a stored pending action. -/
def invokesPendingEffect (n : Node) : Bool :=
  match n with
  | .executeApprovedNode => true
  | _ => false

/-- The outcome of the one Resend API `fetch` the deployed `sendEmail`
makes: HTTP success with a message id, a non-ok HTTP response with its
body text, or a thrown network error. -/
inductive FetchOutcome : Type
  | ok (msgId : String)
  | httpError (body : String)
  | thrown (msg : String)
  deriving DecidableEq, Repr

/-- `sendEmail` of the deployed solution, environment and network
explicit: without `RESEND_API_KEY` it immediately returns a mock success
with a synthetic `mock-` message id built from `Date.now()`; with a key it
performs the fetch and maps the response.  The second component records
whether the external call was made. -/
def sendEmail (apiKey : Option String) (now : Nat) (fetch : FetchOutcome) :
    Ex3.EmailResult × Bool :=
  match apiKey with
  | none => (⟨true, some ("mock-" ++ toString now), none⟩, false)
  | some _ =>
    match fetch with
    | .ok msgId => (⟨true, some msgId, none⟩, true)
    | .httpError body => (⟨false, none, some body⟩, true)
    | .thrown msg => (⟨false, none, some msg⟩, true)

/-- `executeApproved` of the deployed solution, as the partial state
update it returns (the Supabase record mutation and audit insert are side
effects outside the returned state).  The second component records whether
an external email call was made. -/
def executeApproved (s : AgentState) (apiKey : Option String) (now : Nat)
    (fetch : FetchOutcome) : StateUpdate × Bool :=
  match s.pendingAction with
  | none => ({ StateUpdate.empty with error := some (some "No pending action") }, false)
  | some pending =>
    if pending.type = .updateLead ∧ pending.changes.isSome then
      ({ StateUpdate.empty with
          response := some (some ("✅ Updated " ++ pending.leadName ++ "!")),
          pendingAction := some none,
          approvalStatus := some none }, false)
    else if pending.type = .sendEmail ∧ pending.emailContent.isSome then
      let r := sendEmail apiKey now fetch
      if r.1.success = false then
        ({ StateUpdate.empty with
            error := some r.1.error,
            response := some (some ("❌ Failed: " ++ r.1.error.getD "undefined")) },
          r.2)
      else
        ({ StateUpdate.empty with
            response := some (some "✅ Email sent!"),
            pendingAction := some none,
            approvalStatus := some none }, r.2)
    else
      ({ StateUpdate.empty with error := some (some "Unknown action type") }, false)

/-- `withRetry` of the deployed solution: no classifier and no delay cap;
every failure before the last attempt waits `1000 * attempt` ms.  The
trace mirrors `Ex3.RetryTrace` (this variant writes no log). -/
def withRetryGo (fn : Nat → Except E T) : Nat → Nat → Ex3.RetryTrace E T
  | _, 0 => ⟨.error none, 0, [], []⟩
  | attempt, fuel + 1 =>
    match fn attempt with
    | .ok t => ⟨.ok t, 1, [], []⟩
    | .error e =>
      if fuel == 0 then ⟨.error (some e), 1, [], []⟩
      else
        let rest := withRetryGo fn (attempt + 1) fuel
        ⟨rest.result, rest.calls + 1, (1000 * (attempt : ℚ)) :: rest.delays,
          rest.failLog⟩

/-- `withRetry` of the deployed solution (`maxRetries` defaults to 3 at
the call sites). -/
def withRetry (maxRetries : Nat) (fn : Nat → Except E T) :
    Ex3.RetryTrace E T :=
  withRetryGo fn 1 maxRetries

/-- The JSON body of a response of the deployed edge function's approval
branch. -/
structure ServeResponse where
  success : Bool
  message : String
  deriving DecidableEq, Repr

/-- The approval branch of the deployed edge function's request handler:
for `action = "approve"` or `"reject"` it responds immediately with
success and the message built from the action id; it consults no store of
pending decisions (the branch is marked "simplified for exercise" in the
source). -/
def serveApproval (action : String) (actionId : String) : ServeResponse :=
  ⟨true, "Action " ++ actionId ++ " " ++ action ++ "ed."⟩

/-- A sequence of approval calls processed by the handler.  The handler
keeps no state between requests, so each response is `serveApproval` of
that call alone, independent of all earlier calls. -/
def serveApprovalCalls (calls : List (String × String)) : List ServeResponse :=
  calls.map fun c => serveApproval c.1 c.2

end Ex4

/-! ### Verified properties -/

theorem Engine.runFrom_steps_le (g : Engine.GraphSpec ν σ) :
    ∀ fuel n s, (Engine.runFrom g fuel n s).steps ≤ fuel := by
  intro fuel
  induction fuel with
  | zero => intro n s; simp [Engine.runFrom]
  | succ k ih =>
    intro n s
    simp only [Engine.runFrom]
    cases g.exec n s with
    | suspend s' => simp
    | update s' =>
      cases h : g.route n s' with
      | endCompleted => simp [h]
      | endFailed => simp [h]
      | next n' =>
        simpa [h] using Nat.succ_le_succ (ih n' s')

theorem Engine.runFrom_status_terminal (g : Engine.GraphSpec ν σ) :
    ∀ fuel n s, (Engine.runFrom g fuel n s).status = .completed ∨
      (Engine.runFrom g fuel n s).status = .failed ∨
      (Engine.runFrom g fuel n s).status = .awaitingApproval := by
  intro fuel
  induction fuel with
  | zero => intro n s; simp [Engine.runFrom]
  | succ k ih =>
    intro n s
    simp only [Engine.runFrom]
    cases g.exec n s with
    | suspend s' => simp
    | update s' =>
      cases h : g.route n s' with
      | endCompleted => simp [h]
      | endFailed => simp [h]
      | next n' => simpa [h] using ih n' s'

/-- C1: for every graph and every initial state, a run of the engine
terminates in `completed`, `failed` or `awaiting_approval` within the
configured step budget (the run loop is total, never reports `running`,
and executes at most `budget` nodes); and in the two-router ping-pong
graph with a step budget of 5, the run terminates `failed` with the
step-budget-exceeded error after exactly 5 node executions rather than
looping forever. -/
theorem engine_terminates_within_budget :
    (∀ (ν σ : Type) (g : Engine.GraphSpec ν σ) (budget : Nat) (entry : ν) (s0 : σ),
      (Engine.run g budget entry s0).steps ≤ budget ∧
      ((Engine.run g budget entry s0).status = .completed ∨
       (Engine.run g budget entry s0).status = .failed ∨
       (Engine.run g budget entry s0).status = .awaitingApproval)) ∧
    (Engine.run Engine.pingPongGraph 5 true () =
      ⟨.failed, some .stepBudgetExceeded, (), 5⟩) := by
  constructor
  · intro ν σ g budget entry s0
    exact ⟨Engine.runFrom_steps_le g budget entry s0,
           Engine.runFrom_status_terminal g budget entry s0⟩
  · rfl

theorem channelMerge_eq_join_or (a : Option α) (b : Option (Option α)) :
    channelMerge a b = b.join.or a := by
  rcases b with _ | b
  · rfl
  · rcases b with _ | v <;> rfl

/-- C3 (amended): merging a partial update `P` into a state `S` gives
`P`'s value for every field present in `P` with a non-null value
(`P.f.join = some v`), and keeps `S`'s value both for fields absent from
`P` and for fields present in `P` with the value null (`P.f.join = none`)
— the channel reducer is `(a, b) => b ?? a`, so a null update does not
overwrite. -/
theorem merge_overwrites_nonnull_keeps_rest :
    ∀ (s : Ex2.AgentState) (p : Ex2.StateUpdate),
      (Ex2.mergeState s p).userMessage = p.userMessage.join.or s.userMessage ∧
      (Ex2.mergeState s p).intent = p.intent.join.or s.intent ∧
      (Ex2.mergeState s p).leads = p.leads.join.or s.leads ∧
      (Ex2.mergeState s p).selectedLead = p.selectedLead.join.or s.selectedLead ∧
      (Ex2.mergeState s p).pendingAction = p.pendingAction.join.or s.pendingAction ∧
      (Ex2.mergeState s p).approvalStatus = p.approvalStatus.join.or s.approvalStatus ∧
      (Ex2.mergeState s p).approvalReason = p.approvalReason.join.or s.approvalReason ∧
      (Ex2.mergeState s p).response = p.response.join.or s.response ∧
      (Ex2.mergeState s p).error = p.error.join.or s.error := by
  intro s p
  simp only [Ex2.mergeState]
  exact ⟨channelMerge_eq_join_or _ _, channelMerge_eq_join_or _ _,
    channelMerge_eq_join_or _ _, channelMerge_eq_join_or _ _,
    channelMerge_eq_join_or _ _, channelMerge_eq_join_or _ _,
    channelMerge_eq_join_or _ _, channelMerge_eq_join_or _ _,
    channelMerge_eq_join_or _ _⟩

/-- A state about to clear its approval status, and the partial update
that tries to clear it with null (exactly what `executeUpdate` returns:
`approvalStatus: null`). -/
def c3state : Ex2.AgentState :=
  ⟨some "Mark TechCorp as won", none, none, none, none, some .approved, none,
    some "done", none⟩

/-- The null-clearing update of the C3 counterexample. -/
def c3update : Ex2.StateUpdate :=
  ⟨none, none, none, none, none, some none, none, none, none⟩

/-- C3 counterexample: the claim says a field present in the partial
update always takes the partial's value, "in particular when it carries
the value null"; but merging `approvalStatus: null` into a state whose
approval status is `approved` keeps `approved` instead of null, because
the reducer `b ?? a` evaluates to `a` when `b` is null. -/
theorem merge_null_overwrite_counterexample :
    c3update.approvalStatus = some none ∧
    (Ex2.mergeState c3state c3update).approvalStatus = some .approved ∧
    (Ex2.mergeState c3state c3update).approvalStatus ≠ none := by
  refine ⟨rfl, rfl, by decide⟩

/-- The state of the C9 counterexample: the error field is set and the
intent is a lookup. -/
def c9state : Ex2.AgentState :=
  ⟨some "show leads", some ⟨"lookup", none⟩, none, none, none, none, none,
    none, some "database timeout"⟩

/-- C9 counterexample: the approval-gate solution's `routeByIntent` never
checks the error field; on a state with the error set and a lookup intent
it routes to `handle_lookup`, not to any recovery node. -/
theorem router_error_first_counterexample :
    c9state.error = some "database timeout" ∧
    Ex2.routeByIntent c9state = "handle_lookup" ∧
    Ex2.routeByIntent c9state ≠ "error_recovery" := by
  refine ⟨rfl, rfl, by decide⟩

/-- C9 (amended): every router is a total function of the state, but only
two routers implement the error-first convention: the resilient
solution's `routeByIntent` and `routeAfterFollowup` check the error field
first and return the `error_recovery` node identifier before evaluating
any other condition.  The remaining routers do not route errors to a
recovery node: the resilient solution's own `routeAfterReview` never
inspects the error field (a state with the error set and an approved
status still routes to `execute_email`), the approval-gate
`routeByIntent` ignores the error field entirely, and the deployed
solution's `routeByIntent` routes a state-with-error to "end". -/
theorem router_error_first_amended :
    (∀ s : Ex3.AgentState, s.error.isSome = true →
      Ex3.routeByIntent s = "error_recovery" ∧
      Ex3.routeAfterFollowup s = "error_recovery") ∧
    (∀ s : Ex3.AgentState, s.approvalStatus = some .approved →
      Ex3.routeAfterReview s = "execute_email") ∧
    (∀ s : Ex4.AgentState, s.error.isSome = true →
      Ex4.routeByIntent s = "end") := by
  refine ⟨?_, ?_, ?_⟩
  · intro s h
    constructor
    · simp [Ex3.routeByIntent, h]
    · simp [Ex3.routeAfterFollowup, h]
  · intro s h
    simp [Ex3.routeAfterReview, h]
  · intro s h
    simp [Ex4.routeByIntent, h]

/-- The error state used to witness the amended C9 theorem: the error
field is set, and the approval status is `approved` so that
`routeAfterReview`'s disregard of the error is also exercised. -/
def c9r3state : Ex3.AgentState :=
  ⟨some "show leads", some ⟨"lookup", none⟩, none, none, some .approved,
    none, some "database timeout", none⟩

theorem router_error_first_amended_witness :
    (Ex3.routeByIntent c9r3state = "error_recovery" ∧
      Ex3.routeAfterFollowup c9r3state = "error_recovery") ∧
    Ex3.routeAfterReview c9r3state = "execute_email" :=
  ⟨router_error_first_amended.1 c9r3state rfl,
    router_error_first_amended.2.1 c9r3state rfl⟩

/-- The pending send-email action used to close the C10 theorem's
execution conjunct. -/
def c10pending : Ex4.PendingAction :=
  ⟨.sendEmail, "lead-1", "TechCorp", none,
    some ⟨"sophie@techcorp.com", "Following up - TechCorp", "Hi Sophie"⟩⟩

/-- A state holding the pending send-email action of the C10 theorem. -/
def c10state : Ex4.AgentState :=
  ⟨some "Send follow-up to TechCorp", some ⟨"followup", some "TechCorp"⟩,
    none, none, some c10pending, some .approved, none, none⟩

/-- C10: with `RESEND_API_KEY` unset, `sendEmail` performs no external
call and returns `success: true` with a synthetic `mock-` message id (in
both the resilient and the deployed solution, for every parameter triple
and every network behavior); consequently `executeApproved` on a pending
send-email action reports "✅ Email sent!" and clears the pending action
without any message having been delivered. -/
theorem sendEmail_mock_without_key :
    (∀ (now : Nat) (fetch : Ex4.FetchOutcome),
      Ex4.sendEmail none now fetch =
        (⟨true, some ("mock-" ++ toString now), none⟩, false)) ∧
    (∀ (now : Nat) (fetchOp : Nat → Except Ex3.JsError Ex3.EmailResult)
      (rand : Nat → ℚ),
      Ex3.sendEmail none now fetchOp rand =
        (.ok ⟨true, some ("mock-" ++ toString now), none⟩, 0)) ∧
    (∀ (now : Nat) (fetch : Ex4.FetchOutcome),
      Ex4.executeApproved c10state none now fetch =
        ({ Ex4.StateUpdate.empty with
            response := some (some "✅ Email sent!"),
            pendingAction := some none,
            approvalStatus := some none }, false)) := by
  refine ⟨fun now fetch => rfl, fun now fetchOp rand => rfl, fun now fetch => ?_⟩
  rfl

/-- C8 counterexample: two `decide` calls on the same pending id both
return success; the second is accepted exactly like the first instead of
being rejected with an approval-conflict error (the handler keeps no
record of decided ids). -/
theorem approval_conflict_counterexample :
    Ex4.serveApprovalCalls [("approve", "42"), ("approve", "42")] =
      [⟨true, "Action 42 approveed."⟩, ⟨true, "Action 42 approveed."⟩] ∧
    ((Ex4.serveApprovalCalls [("approve", "42"), ("approve", "42")]).getD 1
      ⟨false, ""⟩).success = true := by
  exact ⟨rfl, rfl⟩

/-- C8 (amended): every `decide` call on the deployed handler's approval
branch — first or repeated, in any call sequence — returns success with
the message built from the action id; no conflict detection is performed
and no approval-conflict error exists in the code. -/
theorem approval_decide_always_succeeds :
    ∀ (calls : List (String × String)) (r : Ex4.ServeResponse),
      r ∈ Ex4.serveApprovalCalls calls →
      r.success = true ∧
      ∃ c ∈ calls, r.message = "Action " ++ c.2 ++ " " ++ c.1 ++ "ed." := by
  intro calls r hr
  rw [Ex4.serveApprovalCalls, List.mem_map] at hr
  obtain ⟨c, hc, hcr⟩ := hr
  subst hcr
  exact ⟨rfl, c, hc, rfl⟩

theorem approval_decide_always_succeeds_witness :
    (Ex4.serveApproval "approve" "42").success = true ∧
    ∃ c ∈ [("approve", "42")],
      (Ex4.serveApproval "approve" "42").message =
        "Action " ++ c.2 ++ " " ++ c.1 ++ "ed." :=
  approval_decide_always_succeeds [("approve", "42")]
    (Ex4.serveApproval "approve" "42") (by simp [Ex4.serveApprovalCalls])

/-- C7: the circuit breaker of the lecture notes — (a) while the failure
count has reached the threshold and the cooldown has not elapsed, a call
fails with the circuit-open error without invoking the operation and
leaves the breaker unchanged; (b) any call that goes through and succeeds
resets the failure count to zero (and clears the failure timestamp); (c)
once the cooldown has elapsed the trial call is let through: a successful
trial fully closes the circuit, while a failing trial increments the
count, restamps the failure time, and keeps the circuit open for a fresh
cooldown window. -/
theorem circuitBreaker_trip_and_reset :
    ∀ (E T : Type) (cb : Notes.CircuitBreaker) (now : Int) (op : Except E T),
      (cb.threshold ≤ cb.failures →
        now - cb.lastFailure.getD 0 < cb.resetTimeout →
        cb.execute now op = ⟨.error none, cb, false⟩) ∧
      (cb.isOpen now = false → ∀ t, op = .ok t →
        (cb.execute now op).state.failures = 0 ∧
        (cb.execute now op).state.lastFailure = none ∧
        (cb.execute now op).invoked = true) ∧
      (cb.resetTimeout ≤ now - cb.lastFailure.getD 0 →
        (cb.execute now op).invoked = true ∧
        (∀ t, op = .ok t → (cb.execute now op).state = cb.reset) ∧
        (∀ e, op = .error e →
          (cb.execute now op).state.failures = cb.failures + 1 ∧
          (cb.execute now op).state.lastFailure = some now ∧
          (cb.threshold ≤ cb.failures →
            ∀ now2 : Int, now2 - now < cb.resetTimeout →
              (cb.execute now op).state.isOpen now2 = true))) := by
  intro E T cb now op
  refine ⟨?_, ?_, ?_⟩
  · intro hth hcool
    have hopen : cb.isOpen now = true := by
      simp only [Notes.CircuitBreaker.isOpen]
      rw [if_neg (by omega)]
      simpa using hcool
    simp [Notes.CircuitBreaker.execute, hopen]
  · intro hclosed t hop
    subst hop
    simp [Notes.CircuitBreaker.execute, hclosed, Notes.CircuitBreaker.reset]
  · intro hcool
    have hclosed : cb.isOpen now = false := by
      simp only [Notes.CircuitBreaker.isOpen]
      by_cases hth : cb.failures < cb.threshold
      · rw [if_pos hth]
      · rw [if_neg hth]
        simpa using not_lt.mpr hcool
    refine ⟨?_, ?_, ?_⟩
    · cases op <;> simp [Notes.CircuitBreaker.execute, hclosed]
    · intro t hop
      subst hop
      simp [Notes.CircuitBreaker.execute, hclosed]
    · intro e hop
      subst hop
      refine ⟨?_, ?_, ?_⟩
      · simp [Notes.CircuitBreaker.execute, hclosed,
          Notes.CircuitBreaker.recordFailure]
      · simp [Notes.CircuitBreaker.execute, hclosed,
          Notes.CircuitBreaker.recordFailure]
      · intro hth now2 hnow2
        have hstate : (Notes.CircuitBreaker.execute cb now
            (Except.error e : Except E T)).state = cb.recordFailure now := by
          simp [Notes.CircuitBreaker.execute, hclosed]
        rw [hstate]
        simp only [Notes.CircuitBreaker.recordFailure, Notes.CircuitBreaker.isOpen]
        rw [if_neg (by omega)]
        simpa using hnow2

/-- A breaker that has just tripped: 5 consecutive failures, the last at
time 0, with the source's threshold 5 and cooldown 60000 ms. -/
def c7tripped : Notes.CircuitBreaker := ⟨5, some 0, 5, 60000⟩

theorem circuitBreaker_trip_and_reset_witness :
    Notes.CircuitBreaker.execute c7tripped 1000
      (Except.error "connection refused" : Except String Unit) =
      ⟨.error none, c7tripped, false⟩ :=
  (circuitBreaker_trip_and_reset String Unit c7tripped 1000
    (.error "connection refused")).1 (by decide) (by decide)


theorem Ex4.routeAfterReview_approved (s : Ex4.AgentState)
    (h : Ex4.routeAfterReview s = "execute_approved") :
    s.approvalStatus = some ApprovalStatus.approved := by
  unfold Ex4.routeAfterReview at h
  split_ifs at h with h1 h2
  · exact h1
  · exact absurd h (by decide)
  · exact absurd h (by decide)

theorem Ex4.nextNode_to_executeApproved (n : Ex4.Node) (s : Ex4.AgentState)
    (h : Ex4.nextNode n s = some .executeApprovedNode) :
    s.approvalStatus = some ApprovalStatus.approved := by
  cases n <;> simp only [Ex4.nextNode] at h
  case understandRequest =>
    generalize Ex4.routeByIntent s = r at h
    split at h <;> simp at h
  case handleUpdate => split at h <;> simp at h
  case handleFollowup => split at h <;> simp at h
  case humanReview =>
    generalize hroute : Ex4.routeAfterReview s = r at h
    split at h
    · exact Ex4.routeAfterReview_approved s hroute
    · simp at h
    · simp at h
  case handleLookup => simp at h
  case handleOther => simp at h
  case executeApprovedNode => simp at h
  case handleRejection => simp at h

theorem Ex4.reachable_executeApproved_approved :
    ∀ c : Ex4.Config, Ex4.Reachable c → c.node = .executeApprovedNode →
      c.state.approvalStatus = some ApprovalStatus.approved := by
  intro c hr
  induction hr with
  | entry s0 => intro h; simp at h
  | tail hprev hstep ih =>
    intro h
    cases hstep with
    | exec n s s' n' hnext =>
      simp only at h
      subst h
      exact Ex4.nextNode_to_executeApproved n s' hnext

/-- C2: in every reachable configuration of the deployed graph's step
relation — whatever partial updates the node bodies produce — the node
that performs the execution side effect of a pending action (the record
mutation or email send of `executeApproved`) runs only in states whose
approval status records the decision `approved`; it is reachable only
through the review router's approved branch, and no other registered node
invokes the send. -/
theorem pending_effect_only_after_approval :
    ∀ c : Ex4.Config, Ex4.Reachable c → Ex4.invokesPendingEffect c.node = true →
      c.state.approvalStatus = some ApprovalStatus.approved := by
  intro c hr hn
  have hnode : c.node = .executeApprovedNode := by
    cases hc : c.node <;> rw [hc] at hn <;> first
      | rfl
      | exact absurd hn (by decide)
  exact Ex4.reachable_executeApproved_approved c hr hnode

/-- The initial state of the C2 witness run. -/
def c2s0 : Ex4.AgentState :=
  ⟨some "Send follow-up to TechCorp", none, none, none, none, none, none, none⟩

/-- State after `understand_request` classified the message. -/
def c2sFollow : Ex4.AgentState :=
  { c2s0 with intent := some ⟨"followup", some "TechCorp"⟩ }

/-- State after `handle_followup` proposed the pending email. -/
def c2sPending : Ex4.AgentState :=
  { c2sFollow with
      pendingAction := some c10pending,
      approvalStatus := some .pending,
      response := some "Ready to send. Awaiting approval..." }

/-- State after `human_review` recorded the approval. -/
def c2sApproved : Ex4.AgentState :=
  { c2sPending with approvalStatus := some .approved }

theorem pending_effect_only_after_approval_witness :
    Ex4.invokesPendingEffect Ex4.Node.executeApprovedNode = true ∧
    c2sApproved.approvalStatus = some ApprovalStatus.approved :=
  ⟨rfl,
    pending_effect_only_after_approval ⟨.executeApprovedNode, c2sApproved⟩
      (Ex4.Reachable.tail
        (Ex4.Reachable.tail
          (Ex4.Reachable.tail (Ex4.Reachable.entry c2s0)
            (Ex4.Step.exec .understandRequest c2s0 c2sFollow .handleFollowup rfl))
          (Ex4.Step.exec .handleFollowup c2sFollow c2sPending .humanReview rfl))
        (Ex4.Step.exec .humanReview c2sPending c2sApproved .executeApprovedNode rfl))
      rfl⟩

theorem Ex3.withRetryGo_calls_le (opts : Ex3.RetryOptions)
    (fn : Nat → Except Ex3.JsError T) (rand : Nat → ℚ) :
    ∀ fuel attempt, (Ex3.withRetryGo opts fn rand attempt fuel).calls ≤ fuel := by
  intro fuel
  induction fuel with
  | zero => intro attempt; simp [Ex3.withRetryGo]
  | succ k ih =>
    intro attempt
    simp only [Ex3.withRetryGo]
    cases hf : fn attempt with
    | ok t => simp
    | error e =>
      by_cases hb : (k == 0 || !opts.shouldRetry e) = true
      · simp [hb]
      · simp only [Bool.not_eq_true] at hb
        simp [hb]
        exact ih (attempt + 1)

theorem Ex3.withRetryGo_delays_le (opts : Ex3.RetryOptions)
    (fn : Nat → Except Ex3.JsError T) (rand : Nat → ℚ) :
    ∀ fuel attempt d, d ∈ (Ex3.withRetryGo opts fn rand attempt fuel).delays →
      d ≤ opts.maxDelayMs := by
  intro fuel
  induction fuel with
  | zero => intro attempt d hd; simp [Ex3.withRetryGo] at hd
  | succ k ih =>
    intro attempt d hd
    simp only [Ex3.withRetryGo] at hd
    cases hf : fn attempt with
    | ok t => rw [hf] at hd; simp at hd
    | error e =>
      rw [hf] at hd
      by_cases hb : (k == 0 || !opts.shouldRetry e) = true
      · simp [hb] at hd
      · simp only [Bool.not_eq_true] at hb
        simp [hb] at hd
        rcases hd with hd | hd
        · subst hd
          exact min_le_right _ _
        · exact ih (attempt + 1) d hd

theorem Ex4.withRetryGo_calls_bound (fn : Nat → Except E T) :
    ∀ fuel attempt, (Ex4.withRetryGo fn attempt fuel).calls ≤ fuel := by
  intro fuel
  induction fuel with
  | zero => intro attempt; simp [Ex4.withRetryGo]
  | succ k ih =>
    intro attempt
    simp only [Ex4.withRetryGo]
    cases hf : fn attempt with
    | ok t => simp
    | error e =>
      by_cases hb : (k == 0) = true
      · simp [hb]
      · simp only [Bool.not_eq_true] at hb
        simp [hb]
        exact ih (attempt + 1)

/-- C4: the exercise-3 retry executor invokes the wrapped operation at
most `maxRetries` times for every operation, policy and jitter stream,
and every backoff wait it performs is at most the policy's `maxDelayMs`
(the code clamps the jittered delay); the deployed solution's simpler
`withRetry` also performs at most `maxRetries` invocations. -/
theorem retry_attempt_and_delay_bounds :
    (∀ (T : Type) (opts : Ex3.RetryOptions) (fn : Nat → Except Ex3.JsError T)
      (rand : Nat → ℚ),
      (Ex3.withRetry opts fn rand).calls ≤ opts.maxRetries ∧
      (Ex3.withRetry opts fn rand).delays.all
        (fun d => decide (d ≤ opts.maxDelayMs)) = true) ∧
    (∀ (E T : Type) (maxRetries : Nat) (fn : Nat → Except E T),
      (Ex4.withRetry maxRetries fn).calls ≤ maxRetries) := by
  constructor
  · intro T opts fn rand
    refine ⟨Ex3.withRetryGo_calls_le opts fn rand opts.maxRetries 1, ?_⟩
    exact List.all_eq_true.mpr fun d hd =>
      decide_eq_true (Ex3.withRetryGo_delays_le opts fn rand opts.maxRetries 1 d hd)
  · intro E T maxRetries fn
    exact Ex4.withRetryGo_calls_bound fn maxRetries 1

theorem Ex3.withRetryGo_delays_eq (opts : Ex3.RetryOptions)
    (fn : Nat → Except Ex3.JsError T) (rand : Nat → ℚ) :
    ∀ fuel attempt i, i < (Ex3.withRetryGo opts fn rand attempt fuel).delays.length →
      (Ex3.withRetryGo opts fn rand attempt fuel).delays.getD i 0 =
        Ex3.backoffDelay opts rand (attempt + i) := by
  intro fuel
  induction fuel with
  | zero => intro attempt i hi; simp [Ex3.withRetryGo] at hi
  | succ k ih =>
    intro attempt i hi
    simp only [Ex3.withRetryGo] at hi ⊢
    cases hf : fn attempt with
    | ok t => rw [hf] at hi; simp at hi
    | error e =>
      rw [hf] at hi
      by_cases hb : (k == 0 || !opts.shouldRetry e) = true
      · simp [hb] at hi
      · simp only [Bool.not_eq_true] at hb
        simp only [hb, Bool.false_eq_true, if_false] at hi ⊢
        cases i with
        | zero => simp
        | succ j =>
          simp only [List.getD_cons_succ]
          have hlen : j < (Ex3.withRetryGo opts fn rand (attempt + 1) k).delays.length := by
            simpa using hi
          rw [ih (attempt + 1) j hlen]
          congr 1
          omega

/-- C5 (amended): the backoff delay the exercise-3 executor waits before
the retry that follows a retryable failure of attempt `n` (1-indexed, the
`n`-th recorded delay) is
`min(base_delay * 2^(n-1) * (1 + random() * 0.1), max_delay)`: the jitter
factor is applied to the exponential term first and the clamp to
`max_delay` is applied last (not before the jitter, as the spec's formula
has it), with the jitter fraction fixed at 0.1. -/
theorem retry_backoff_delay_amended :
    ∀ (T : Type) (opts : Ex3.RetryOptions) (fn : Nat → Except Ex3.JsError T)
      (rand : Nat → ℚ) (n : Nat),
      1 ≤ n → n - 1 < (Ex3.withRetry opts fn rand).delays.length →
      (Ex3.withRetry opts fn rand).delays.getD (n - 1) 0 =
        min (opts.baseDelayMs * 2 ^ (n - 1) * (1 + rand n * (1 / 10)))
          opts.maxDelayMs := by
  intro T opts fn rand n hn hlen
  simp only [Ex3.withRetry] at hlen ⊢
  rw [Ex3.withRetryGo_delays_eq opts fn rand opts.maxRetries 1 (n - 1) hlen]
  have h1 : 1 + (n - 1) = n := by omega
  rw [h1, Ex3.backoffDelay]

/-- Witness operation for the retry theorems: always fails with a
retryable 503. -/
def c5wfn : Nat → Except Ex3.JsError Unit :=
  fun _ => .error ⟨"timeout", some 503⟩

/-- Witness jitter stream: `Math.random()` returned 0 on every draw. -/
def c5wrand : Nat → ℚ := fun _ => 0

theorem retry_backoff_delay_amended_witness :
    (Ex3.withRetry Ex3.defaultRetryOptions c5wfn c5wrand).delays.getD 0 0 =
      min (Ex3.defaultRetryOptions.baseDelayMs * 2 ^ 0 * (1 + c5wrand 1 * (1 / 10)))
        Ex3.defaultRetryOptions.maxDelayMs :=
  retry_backoff_delay_amended Unit Ex3.defaultRetryOptions c5wfn c5wrand 1
    (by decide) (by decide)

/-- The policy of the C5 counterexample: 6 attempts, base 1000 ms, cap
10000 ms, default classifier. -/
def c5opts : Ex3.RetryOptions := ⟨6, 1000, 10000, Ex3.defaultShouldRetry⟩

/-- Jitter stream of the C5 counterexample: `Math.random()` returned 1/2
on every draw. -/
def c5rand : Nat → ℚ := fun _ => 1 / 2

/-- C5 counterexample: with base delay 1000, max delay 10000 and jitter
sample 1/2, the delay the code waits after attempt 5 is
`min(1000 * 2^4 * 1.05, 10000) = 10000`, while the claim's formula
`min(10000, 1000 * 2^4) * 1.05` gives 10500 — the code clamps after
applying jitter, the claimed formula clamps before. -/
theorem retry_backoff_formula_counterexample :
    (Ex3.withRetry c5opts c5wfn c5rand).delays.getD 4 0 = 10000 ∧
    Ex3.specBackoffFormula c5opts c5rand 5 = 10500 ∧
    ((10000 : ℚ) = 10500 → False) := by
  refine ⟨?_, ?_, by norm_num⟩
  · show (Ex3.withRetryGo c5opts c5wfn c5rand 1 c5opts.maxRetries).delays.getD 4 0 = 10000
    rw [Ex3.withRetryGo_delays_eq c5opts c5wfn c5rand c5opts.maxRetries 1 4 (by decide)]
    norm_num [Ex3.backoffDelay, c5opts, c5rand, min_def]
  · norm_num [Ex3.specBackoffFormula, c5opts, c5rand, min_def]

theorem lastLog_cons_some (a k : Nat) {l : List Nat} (h : lastLog l = some k) :
    lastLog (a :: l) = some k := by
  cases l with
  | nil => simp [lastLog] at h
  | cons b bs => exact h

theorem Ex3.withRetryGo_stop (opts : Ex3.RetryOptions)
    (fn : Nat → Except Ex3.JsError T) (rand : Nat → ℚ) :
    ∀ fuel attempt k e,
      attempt + fuel = opts.maxRetries + 1 →
      attempt ≤ k → k ≤ opts.maxRetries →
      (∀ j, attempt ≤ j → j < k →
        ∃ ej, fn j = .error ej ∧ opts.shouldRetry ej = true) →
      fn k = .error e →
      (opts.shouldRetry e = false ∨ k = opts.maxRetries) →
      (Ex3.withRetryGo opts fn rand attempt fuel).calls = k + 1 - attempt ∧
      (Ex3.withRetryGo opts fn rand attempt fuel).result = .error (some e) ∧
      lastLog (Ex3.withRetryGo opts fn rand attempt fuel).failLog = some k := by
  intro fuel
  induction fuel with
  | zero =>
    intro attempt k e hsum hak hkm hpre hk hstop
    omega
  | succ f ih =>
    intro attempt k e hsum hak hkm hpre hk hstop
    rcases hak.eq_or_lt with heq | hlt
    · subst heq
      simp only [Ex3.withRetryGo, hk]
      have hcond : ((f == 0) || !opts.shouldRetry e) = true := by
        rcases hstop with h | h
        · simp [h]
        · have hf0 : f = 0 := by omega
          simp [hf0]
      rw [if_pos hcond]
      refine ⟨?_, rfl, rfl⟩
      dsimp only
      omega
    · obtain ⟨ea, hfa, hra⟩ := hpre attempt le_rfl hlt
      have hfne : f ≠ 0 := by omega
      have hf0 : (f == 0) = false := by
        cases f with
        | zero => exact absurd rfl hfne
        | succ m => rfl
      simp only [Ex3.withRetryGo, hfa]
      rw [if_neg (by simp [hf0, hra])]
      dsimp only
      obtain ⟨hc, hr, hl⟩ := ih (attempt + 1) k e (by omega) (by omega) hkm
        (fun j hj1 hj2 => hpre j (by omega) hj2) hk hstop
      exact ⟨by omega, hr, lastLog_cons_some attempt k hl⟩

/-- C6 (amended): when attempt `k` fails with an error the classifier
marks terminal, or `k` is the last allowed attempt, after attempts
`1..k-1` failed retryably, the exercise-3 executor performs no further
invocations (exactly `k` calls), and the value it propagates to the
caller is the original (or last) error completely unchanged — carrying no
attempt-count annotation; the attempt count appears only in the console
log, whose final entry is the failed attempt number `k`. -/
theorem retry_stop_propagates_last_error :
    ∀ (T : Type) (opts : Ex3.RetryOptions) (fn : Nat → Except Ex3.JsError T)
      (rand : Nat → ℚ) (k : Nat) (e : Ex3.JsError),
      1 ≤ k → k ≤ opts.maxRetries →
      (∀ j, 1 ≤ j → j < k →
        ∃ ej, fn j = .error ej ∧ opts.shouldRetry ej = true) →
      fn k = .error e →
      (opts.shouldRetry e = false ∨ k = opts.maxRetries) →
      (Ex3.withRetry opts fn rand).calls = k ∧
      (Ex3.withRetry opts fn rand).result = .error (some e) ∧
      lastLog (Ex3.withRetry opts fn rand).failLog = some k := by
  intro T opts fn rand k e hk1 hkm hpre hk hstop
  obtain ⟨hc, hr, hl⟩ := Ex3.withRetryGo_stop opts fn rand opts.maxRetries 1 k e
    (by omega) hk1 hkm hpre hk hstop
  simp only [Ex3.withRetry]
  exact ⟨by omega, hr, hl⟩

/-- The terminal (404, non-retryable) error of the C6 scenarios. -/
def c6e404 : Ex3.JsError := ⟨"boom", some 404⟩

/-- A run that fails terminally on its first attempt. -/
def c6fnA : Nat → Except Ex3.JsError Unit := fun _ => .error c6e404

/-- A run that fails retryably twice, then fails with the same terminal
error on its third and last attempt. -/
def c6fnB : Nat → Except Ex3.JsError Unit :=
  fun j => if j < 3 then .error ⟨"boom", some 503⟩ else .error c6e404

/-- Jitter stream of the C6 runs. -/
def c6rand : Nat → ℚ := fun _ => 0

theorem retry_stop_propagates_last_error_witness :
    (Ex3.withRetry Ex3.defaultRetryOptions c6fnA c6rand).calls = 1 ∧
    (Ex3.withRetry Ex3.defaultRetryOptions c6fnA c6rand).result =
      .error (some c6e404) ∧
    lastLog (Ex3.withRetry Ex3.defaultRetryOptions c6fnA c6rand).failLog =
      some 1 :=
  retry_stop_propagates_last_error Unit Ex3.defaultRetryOptions c6fnA c6rand 1
    c6e404 (by decide) (by decide)
    (fun j hj1 hj2 => absurd hj1 (by omega)) rfl (Or.inl (by decide))

/-- C6 counterexample: a run stopping terminally after 1 attempt and a
run exhausting all 3 attempts propagate the very same error value to the
caller, so the propagated error cannot carry any attempt-count
annotation; the error is the last error unchanged, not an annotated
variant of it. -/
theorem retry_no_attempt_annotation_counterexample :
    (Ex3.withRetry Ex3.defaultRetryOptions c6fnA c6rand).calls = 1 ∧
    (Ex3.withRetry Ex3.defaultRetryOptions c6fnB c6rand).calls = 3 ∧
    (Ex3.withRetry Ex3.defaultRetryOptions c6fnA c6rand).result =
      (Ex3.withRetry Ex3.defaultRetryOptions c6fnB c6rand).result ∧
    (Ex3.withRetry Ex3.defaultRetryOptions c6fnA c6rand).result =
      .error (some c6e404) :=
  ⟨rfl, rfl, rfl, rfl⟩
